import Mathlib

/-!
Verification development for the `flet-audio` package, embedding
`src/src/flet_audio/audio.py` (the `Audio` service control) in Lean.

The file has two layers:

* data model and behaviour, translated from the Python source: the `Audio`
  record with its field defaults, Python truthiness of optional strings,
  `before_update` with its assertion, plain field assignment, and each public
  method as a call against an abstract Command Channel;
* a transcription of the public method signatures (`audio_api`), recording for
  each method its command name, whether it is the suspending form, the
  `position` parameter default, and the `timeout` parameter default, literal
  type and documented unit, as written in the source.

Pieces of the repository that are not under `src/` (the `ReleaseMode` enum of
`types.py`, the platform-side source resolution) and the external collaborators
the spec contracts out (the `ft.Duration` type, the Command Channel behind
`_invoke_method_async`, the background-task scheduler behind
`asyncio.create_task`) are modelled from the spec, and say so in their doc
comments.
-/

namespace FletAudio

/-- Modelled from the spec: `ft.Duration` (a flet type, not under src/) is a
time span with at least millisecond resolution; `ft.Duration()` is the
zero-length duration, used as the default start position of `play`. -/
structure Duration where
  milliseconds : Nat
deriving DecidableEq, Repr

/-- The zero-length duration, the value of the Python default `ft.Duration()`. -/
def Duration.zero : Duration := ⟨0⟩

/-- Modelled from the spec: `ReleaseMode` (declared in `types.py`, which is not
under src/) is the enum RELEASE | LOOP | STOP, the policy for what happens when
playback completes. -/
inductive ReleaseMode where
  | RELEASE
  | LOOP
  | STOP
deriving DecidableEq, Repr

/-- Modelled from the spec: an opaque registered event handler (the source
stores handlers as optional callables; only their identity matters here). -/
structure EventHandler where
  id : Nat
deriving DecidableEq, Repr

/-- The `Audio` control state, transcribed from the field declarations of
`audio.py` lines 27-117. `ft.Number` fields are embedded as rationals; the five
`on_*` fields hold the optional registered handlers. -/
structure Audio where
  src : Option String
  src_base64 : Option String
  autoplay : Bool
  volume : Rat
  balance : Rat
  playback_rate : Rat
  release_mode : ReleaseMode
  on_loaded : Option EventHandler
  on_duration_change : Option EventHandler
  on_state_change : Option EventHandler
  on_position_change : Option EventHandler
  on_seek_complete : Option EventHandler
deriving DecidableEq, Repr

/-- The field defaults of `Audio`: `src = None`, `src_base64 = None`,
`autoplay = False`, `volume = 1.0`, `balance = 0.0`, `playback_rate = 1.0`,
`release_mode = ReleaseMode.RELEASE`, all handlers `None`. -/
def Audio.default : Audio :=
  ⟨none, none, false, 1, 0, 1, ReleaseMode.RELEASE, none, none, none, none, none⟩

/-- Python truthiness of an `Optional[str]` value: `None` and the empty string
are falsy, every other string is truthy. This is the test performed by
`assert self.src or self.src_base64`. -/
def truthy : Option String → Bool
  | none => false
  | some s => s != ""

/-- `Audio.before_update` (audio.py lines 119-121). The call
`super().before_update()` belongs to the excluded generic control runtime
(a spec non-goal) and is embedded as a no-op on the instance state; the method
then asserts `self.src or self.src_base64`, failing with the message
"either src or src_base64 must be provided" when both are falsy, and otherwise
leaves the instance as it is. -/
def before_update (a : Audio) : Except String Audio :=
  if truthy a.src || truthy a.src_base64 then Except.ok a
  else Except.error ("either src or src_base64 must be provided")

/-- Plain field assignment `instance.src = v`: a dataclass attribute set with
no validation attached, modelled as a total record update. -/
def set_src (a : Audio) (v : Option String) : Audio := { a with src := v }

/-- Plain field assignment `instance.src_base64 = v`: a dataclass attribute set
with no validation attached, modelled as a total record update. -/
def set_src_base64 (a : Audio) (v : Option String) : Audio := { a with src_base64 := v }

/-- Modelled from the spec: the effective-source resolution is performed by the
platform-side player package of this repository, which is not under src/; the
spec and both field docstrings state that `src_base64` has priority when both
fields are provided. -/
def effective_source (a : Audio) : Option String :=
  if truthy a.src_base64 then a.src_base64 else a.src

/-- The two failure kinds a command can produce (spec error taxonomy):
a timeout and a remote-side failure. -/
inductive CmdFailure where
  | timeoutError
  | remoteError
deriving DecidableEq, Repr

/-- One outbound request of `_invoke_method_async`: the command name, the
optional argument mapping (`none` when the caller passes no mapping, as
`pause`, `resume`, `release` and the two queries do), and the timeout in
seconds (`none` meaning wait indefinitely). -/
structure Invocation where
  method : String
  arguments : Option (List (String × Duration))
  timeout : Option Rat
deriving DecidableEq, Repr

/-- The reply a channel eventually produces for one invocation: a result value
(possibly absent) or a failure. -/
inductive CmdResult where
  | ok (v : Option Duration)
  | fail (e : CmdFailure)
deriving DecidableEq, Repr

/-- A channel behaviour: what each invocation comes back with. -/
abbrev Chan := Invocation → CmdResult

/-- Modelled from the spec: `_invoke_method_async` (the Command Channel of the
excluded control runtime) sends the invocation, awaits the reply up to the
timeout, returns the result value on success and raises the failure — a
`TimeoutError` when no reply arrived in the window — to the awaiting caller. -/
def invoke_method_async (ch : Chan) (i : Invocation) : Except CmdFailure (Option Duration) :=
  match ch i with
  | CmdResult.ok v => Except.ok v
  | CmdResult.fail e => Except.error e

/-- `Audio.play_async` (audio.py lines 123-134): awaits
`_invoke_method_async("play", {"position": position}, timeout=timeout)`,
discarding the reply value and propagating any failure. -/
def play_async (ch : Chan) (position : Duration) (timeout : Option Rat) :
    Except CmdFailure Unit :=
  (invoke_method_async ch ⟨"play", some [("position", position)], timeout⟩).map fun _ => ()

/-- `Audio.pause_async` (audio.py lines 149-156): awaits
`_invoke_method_async("pause", timeout=timeout)` with no argument mapping. -/
def pause_async (ch : Chan) (timeout : Option Rat) : Except CmdFailure Unit :=
  (invoke_method_async ch ⟨"pause", none, timeout⟩).map fun _ => ()

/-- `Audio.resume_async` (audio.py lines 173-183): awaits
`_invoke_method_async("resume", timeout=timeout)` with no argument mapping. -/
def resume_async (ch : Chan) (timeout : Option Rat) : Except CmdFailure Unit :=
  (invoke_method_async ch ⟨"resume", none, timeout⟩).map fun _ => ()

/-- `Audio.release_async` (audio.py lines 197-209): awaits
`_invoke_method_async("release", timeout=timeout)` with no argument mapping. -/
def release_async (ch : Chan) (timeout : Option Rat) : Except CmdFailure Unit :=
  (invoke_method_async ch ⟨"release", none, timeout⟩).map fun _ => ()

/-- `Audio.seek_async` (audio.py lines 225-236): the `position` argument is
required; awaits `_invoke_method_async("seek", {"position": position},
timeout=timeout)`. -/
def seek_async (ch : Chan) (position : Duration) (timeout : Option Rat) :
    Except CmdFailure Unit :=
  (invoke_method_async ch ⟨"seek", some [("position", position)], timeout⟩).map fun _ => ()

/-- `Audio.get_duration_async` (audio.py lines 251-267): returns the awaited
reply of `_invoke_method_async("get_duration", timeout=timeout)`, an
`Optional[ft.Duration]`. -/
def get_duration_async (ch : Chan) (timeout : Option Rat) :
    Except CmdFailure (Option Duration) :=
  invoke_method_async ch ⟨"get_duration", none, timeout⟩

/-- `Audio.get_current_position_async` (audio.py lines 269-278): returns the
awaited reply of `_invoke_method_async("get_current_position",
timeout=timeout)`, an `Optional[ft.Duration]`. -/
def get_current_position_async (ch : Chan) (timeout : Option Rat) :
    Except CmdFailure (Option Duration) :=
  invoke_method_async ch ⟨"get_current_position", none, timeout⟩

/-- Modelled from the spec: a background unit of work scheduled with
`asyncio.create_task`. The creating call returns unit immediately; the eventual
outcome of the unit, success or the failure it raised, is captured in the task
object — logged and dropped by the scheduler if never retrieved — and never
propagates to the creating caller. -/
structure BgTask where
  outcome : Except CmdFailure Unit
deriving Repr

/-- Modelled from the spec: scheduling a body as a background task: the caller
gets unit back at once, the body outcome is confined to the task record. -/
def create_task (body : Except CmdFailure Unit) : Unit × BgTask := ((), ⟨body⟩)

/-- `Audio.play` (audio.py lines 136-147):
`asyncio.create_task(self.play_async(position, timeout=timeout))`. -/
def play (ch : Chan) (position : Duration) (timeout : Option Rat) : Unit × BgTask :=
  create_task (play_async ch position timeout)

/-- `Audio.pause` (audio.py lines 158-171):
`asyncio.create_task(self.pause_async(timeout=timeout))`. -/
def pause (ch : Chan) (timeout : Option Rat) : Unit × BgTask :=
  create_task (pause_async ch timeout)

/-- `Audio.resume` (audio.py lines 185-195):
`asyncio.create_task(self.resume_async(timeout=timeout))`. -/
def resume (ch : Chan) (timeout : Option Rat) : Unit × BgTask :=
  create_task (resume_async ch timeout)

/-- `Audio.release` (audio.py lines 211-223):
`asyncio.create_task(self.release_async(timeout=timeout))`. -/
def release (ch : Chan) (timeout : Option Rat) : Unit × BgTask :=
  create_task (release_async ch timeout)

/-- `Audio.seek` (audio.py lines 238-249):
`asyncio.create_task(self.seek_async(position, timeout=timeout))`. -/
def seek (ch : Chan) (position : Duration) (timeout : Option Rat) : Unit × BgTask :=
  create_task (seek_async ch position timeout)

/-- Return kind of a public method, as written in the source return type
hints: `None` for the control commands, `Optional[ft.Duration]` for the two
queries. -/
inductive RetKind where
  | unit
  | optionalDuration
deriving DecidableEq, Repr

/-- One public method signature of `Audio`, transcribed from the source:
`op` is the command the method issues; `suspending` is true for the
`async def` form and false for the fire-and-forget wrapper; `positionParam` is
`none` when the method has no `position` parameter, `some none` when the
parameter is required, and `some (some d)` when it defaults to `d`;
`timeoutDefault` is the literal default of the `timeout` parameter;
`timeoutAcceptsNone` records that its type hint is `Optional[float]`;
`timeoutUnit` is the unit the method docstrings document for `timeout`
("The maximum amount of time (in seconds) to wait for a response");
`ret` is the return kind. -/
structure MethodSig where
  op : String
  suspending : Bool
  positionParam : Option (Option Duration)
  timeoutDefault : Option Rat
  timeoutAcceptsNone : Bool
  timeoutUnit : String
  ret : RetKind
deriving DecidableEq, Repr

/-- The public method surface of `Audio`, audio.py lines 123-278: every method
carries `timeout: Optional[float] = 10`; `play_async` and `play` default
`position` to `ft.Duration()`; `seek_async` and `seek` require it;
`get_duration` and `get_current_position` exist only in the suspending form
and return `Optional[ft.Duration]`. -/
def audio_api : List MethodSig :=
  [⟨"play", true, some (some Duration.zero), some 10, true, "seconds", RetKind.unit⟩,
   ⟨"play", false, some (some Duration.zero), some 10, true, "seconds", RetKind.unit⟩,
   ⟨"pause", true, none, some 10, true, "seconds", RetKind.unit⟩,
   ⟨"pause", false, none, some 10, true, "seconds", RetKind.unit⟩,
   ⟨"resume", true, none, some 10, true, "seconds", RetKind.unit⟩,
   ⟨"resume", false, none, some 10, true, "seconds", RetKind.unit⟩,
   ⟨"release", true, none, some 10, true, "seconds", RetKind.unit⟩,
   ⟨"release", false, none, some 10, true, "seconds", RetKind.unit⟩,
   ⟨"seek", true, some none, some 10, true, "seconds", RetKind.unit⟩,
   ⟨"seek", false, some none, some 10, true, "seconds", RetKind.unit⟩,
   ⟨"get_duration", true, none, some 10, true, "seconds", RetKind.optionalDuration⟩,
   ⟨"get_current_position", true, none, some 10, true, "seconds", RetKind.optionalDuration⟩]

/-- A channel that replies with success to exactly one invocation and rejects
every other with a remote failure; used to observe which invocation a method
sends. -/
def only_accepts (i0 : Invocation) : Chan :=
  fun i => if i = i0 then CmdResult.ok none else CmdResult.fail CmdFailure.remoteError

/-- A channel that never replies: every command ends in a timeout. -/
def timeout_chan : Chan := fun _ => CmdResult.fail CmdFailure.timeoutError

/-- A channel that replies to every command with an absent result value. -/
def ok_none_chan : Chan := fun _ => CmdResult.ok none

/-- A concrete instance with only `src` set, for witnesses. -/
def audio_src : Audio := { Audio.default with src := some ("a.mp3") }

/-- A concrete instance with both `src` and `src_base64` set, for witnesses. -/
def audio_both : Audio :=
  { Audio.default with src := some ("a.mp3"), src_base64 := some ("QUJD") }

/-- Claim C1: for every instance, activation (`before_update`) fails with the
configuration-error message "either src or src_base64 must be provided" iff
both `src` and `src_base64` are `None` or the empty string; it succeeds iff at
least one is non-empty; and plain field assignment is a total update that never
raises, so the error arises only at activation time. -/
theorem before_update_fails_iff_no_source (a : Audio) :
    (before_update a = Except.error ("either src or src_base64 must be provided")
        ↔ (truthy a.src = false ∧ truthy a.src_base64 = false))
    ∧ (before_update a = Except.ok a
        ↔ (truthy a.src = true ∨ truthy a.src_base64 = true))
    ∧ (∀ v : Option String, (set_src a v).src = v ∧ (set_src_base64 a v).src_base64 = v) := by
  cases h1 : truthy a.src <;> cases h2 : truthy a.src_base64 <;>
    simp [before_update, set_src, set_src_base64, h1, h2]

/-- Claim C2: for every channel behaviour (including one that fails every
command with a timeout), every position and every timeout value, each
fire-and-forget form returns unit to its caller, and the outcome of the
scheduled background unit of work — exactly the suspending form run to
completion, failures included — is captured inside the task record and never
reaches the caller. -/
theorem fire_and_forget_never_raises (ch : Chan) (pos : Duration) (t : Option Rat) :
    ((play ch pos t).1 = () ∧ (play ch pos t).2.outcome = play_async ch pos t)
    ∧ ((pause ch t).1 = () ∧ (pause ch t).2.outcome = pause_async ch t)
    ∧ ((resume ch t).1 = () ∧ (resume ch t).2.outcome = resume_async ch t)
    ∧ ((release ch t).1 = () ∧ (release ch t).2.outcome = release_async ch t)
    ∧ ((seek ch pos t).1 = () ∧ (seek ch pos t).2.outcome = seek_async ch pos t) :=
  ⟨⟨rfl, rfl⟩, ⟨rfl, rfl⟩, ⟨rfl, rfl⟩, ⟨rfl, rfl⟩, ⟨rfl, rfl⟩⟩

/-- Claim C3: both forms of `play` default `position` to the zero-length
duration, while both forms of `seek` have `position` required with no default
(in the embedding, `seek_async` and `seek` also take `position` as a
non-optional argument, so a seek cannot be built without one). -/
theorem seek_position_required_play_defaults_zero :
    ((audio_api.filter fun m => m.op == "play").length = 2
      ∧ (audio_api.filter fun m => m.op == "play").all
          (fun m => decide (m.positionParam = some (some Duration.zero))) = true)
    ∧ ((audio_api.filter fun m => m.op == "seek").length = 2
      ∧ (audio_api.filter fun m => m.op == "seek").all
          (fun m => decide (m.positionParam = some none)) = true) := by
  decide

/-- Claim C4: every one of the twelve public methods carries a `timeout`
parameter documented in seconds, defaulting to 10, whose `Optional[float]`
type hint admits `None` (wait indefinitely). -/
theorem timeout_seconds_default_ten_accepts_none :
    audio_api.length = 12
    ∧ audio_api.all
        (fun m => decide (m.timeoutDefault = some ((10 : Rat))
          ∧ m.timeoutAcceptsNone = true ∧ m.timeoutUnit = "seconds")) = true := by
  decide

/-- Claim C5: against a channel that fails each of the seven commands with a
timeout, every suspending form propagates the timeout failure to its direct
caller; none of them swallows it. -/
theorem suspending_forms_propagate_timeout (ch : Chan) (pos : Duration) (t : Option Rat)
    (hp : ch ⟨"play", some [("position", pos)], t⟩ = CmdResult.fail CmdFailure.timeoutError)
    (hpa : ch ⟨"pause", none, t⟩ = CmdResult.fail CmdFailure.timeoutError)
    (hr : ch ⟨"resume", none, t⟩ = CmdResult.fail CmdFailure.timeoutError)
    (hre : ch ⟨"release", none, t⟩ = CmdResult.fail CmdFailure.timeoutError)
    (hs : ch ⟨"seek", some [("position", pos)], t⟩ = CmdResult.fail CmdFailure.timeoutError)
    (hd : ch ⟨"get_duration", none, t⟩ = CmdResult.fail CmdFailure.timeoutError)
    (hc : ch ⟨"get_current_position", none, t⟩ = CmdResult.fail CmdFailure.timeoutError) :
    play_async ch pos t = Except.error CmdFailure.timeoutError
    ∧ pause_async ch t = Except.error CmdFailure.timeoutError
    ∧ resume_async ch t = Except.error CmdFailure.timeoutError
    ∧ release_async ch t = Except.error CmdFailure.timeoutError
    ∧ seek_async ch pos t = Except.error CmdFailure.timeoutError
    ∧ get_duration_async ch t = Except.error CmdFailure.timeoutError
    ∧ get_current_position_async ch t = Except.error CmdFailure.timeoutError := by
  simp [play_async, pause_async, resume_async, release_async, seek_async,
    get_duration_async, get_current_position_async, invoke_method_async,
    Except.map, hp, hpa, hr, hre, hs, hd, hc]

/-- Witness for claim C5 at the channel that never replies, with the zero
position and the default ten-second timeout. -/
theorem suspending_forms_propagate_timeout_witness :
    timeout_chan ⟨"play", some [("position", Duration.zero)], some 10⟩
        = CmdResult.fail CmdFailure.timeoutError
    ∧ (play_async timeout_chan Duration.zero (some 10) = Except.error CmdFailure.timeoutError
      ∧ pause_async timeout_chan (some 10) = Except.error CmdFailure.timeoutError
      ∧ resume_async timeout_chan (some 10) = Except.error CmdFailure.timeoutError
      ∧ release_async timeout_chan (some 10) = Except.error CmdFailure.timeoutError
      ∧ seek_async timeout_chan Duration.zero (some 10) = Except.error CmdFailure.timeoutError
      ∧ get_duration_async timeout_chan (some 10) = Except.error CmdFailure.timeoutError
      ∧ get_current_position_async timeout_chan (some 10)
          = Except.error CmdFailure.timeoutError) :=
  ⟨rfl, suspending_forms_propagate_timeout timeout_chan Duration.zero (some 10)
    rfl rfl rfl rfl rfl rfl rfl⟩

/-- Claim C6: `get_duration` and `get_current_position` exist only in the
suspending form, return `Optional[ft.Duration]`, and an absent reply value is a
valid successful result (currently unknown), not an error. -/
theorem queries_suspending_only_optional_result :
    (audio_api.filter fun m => m.op == "get_duration" || m.op == "get_current_position").all
        (fun m => m.suspending && decide (m.ret = RetKind.optionalDuration)) = true
    ∧ (audio_api.filter fun m => m.op == "get_duration").length = 1
    ∧ (audio_api.filter fun m => m.op == "get_current_position").length = 1
    ∧ get_duration_async ok_none_chan (some 10) = Except.ok none
    ∧ get_current_position_async ok_none_chan (some 10) = Except.ok none :=
  ⟨by decide, by decide, by decide, rfl, rfl⟩

/-- Claim C7: for every instance with both `src` and `src_base64` non-empty,
the effective audio source resolves to `src_base64`. -/
theorem src_base64_takes_precedence (a : Audio)
    (_h1 : truthy a.src = true) (h2 : truthy a.src_base64 = true) :
    effective_source a = a.src_base64 := by
  simp [effective_source, h2]

/-- Witness for claim C7 at a concrete instance with both sources set. -/
theorem src_base64_takes_precedence_witness :
    truthy audio_both.src = true ∧ truthy audio_both.src_base64 = true
      ∧ effective_source audio_both = audio_both.src_base64 :=
  ⟨rfl, rfl, src_base64_takes_precedence audio_both rfl rfl⟩

/-- Claim C8: activation checks only the source invariant; for every instance
with a non-empty `src` or `src_base64`, `before_update` succeeds whatever
values `volume`, `balance` and `playback_rate` hold, out-of-range ones
included. -/
theorem before_update_ignores_numeric_ranges (a : Audio) (v b r : Rat)
    (h : truthy a.src = true ∨ truthy a.src_base64 = true) :
    before_update { a with volume := v, balance := b, playback_rate := r }
      = Except.ok { a with volume := v, balance := b, playback_rate := r } := by
  rcases h with h | h <;> simp [before_update, h]

/-- Witness for claim C8: a source-bearing instance with volume 5, balance -3
and playback rate -1 — all outside their documented ranges — activates. -/
theorem before_update_ignores_numeric_ranges_witness :
    (truthy audio_src.src = true ∨ truthy audio_src.src_base64 = true)
    ∧ before_update { audio_src with volume := 5, balance := -3, playback_rate := -1 }
        = Except.ok { audio_src with volume := 5, balance := -3, playback_rate := -1 } :=
  ⟨Or.inl rfl,
    before_update_ignores_numeric_ranges audio_src 5 (-3) (-1) (Or.inl rfl)⟩

/-- Claim C9: for every position and timeout, the fire-and-forget `play`
returns unit and its background work succeeds exactly against a channel
accepting the single invocation `play` with arguments mapping
`position ↦ position` and the unchanged timeout (and captures the failure of a
never-replying channel instead of raising it); `pause`, `resume` and `release`
send their name with no arguments mapping, `seek` sends `seek` with the
position mapping — each pinned by a channel accepting exactly that invocation,
with a cross check that a wrong command name is rejected — and the `position`
default of both `play` forms is the zero duration. -/
theorem commands_sent_with_expected_payloads (pos : Duration) (t : Option Rat) :
    ((play (only_accepts ⟨"play", some [("position", pos)], t⟩) pos t).1 = ()
      ∧ (play (only_accepts ⟨"play", some [("position", pos)], t⟩) pos t).2.outcome
          = Except.ok ())
    ∧ (play timeout_chan pos t).2.outcome = Except.error CmdFailure.timeoutError
    ∧ pause_async (only_accepts ⟨"pause", none, t⟩) t = Except.ok ()
    ∧ resume_async (only_accepts ⟨"resume", none, t⟩) t = Except.ok ()
    ∧ release_async (only_accepts ⟨"release", none, t⟩) t = Except.ok ()
    ∧ seek_async (only_accepts ⟨"seek", some [("position", pos)], t⟩) pos t = Except.ok ()
    ∧ pause_async (only_accepts ⟨"play", none, t⟩) t = Except.error CmdFailure.remoteError
    ∧ (audio_api.filter fun m => m.op == "play").all
        (fun m => decide (m.positionParam = some (some Duration.zero))) = true := by
  refine ⟨⟨rfl, ?_⟩, ?_, ?_, ?_, ?_, ?_, ?_, by decide⟩ <;>
    simp [play, play_async, pause_async, resume_async, release_async, seek_async,
      create_task, invoke_method_async, only_accepts, timeout_chan, Except.map]

/-- Claim C10: activation validation is read-only — whenever `before_update`
succeeds it returns the instance with every field (sources, flags, numeric
settings, release mode and all five handlers) unchanged, and on failure it
produces no instance at all. -/
theorem before_update_read_only (a : Audio) (r : Audio)
    (h : before_update a = Except.ok r) :
    r.src = a.src ∧ r.src_base64 = a.src_base64 ∧ r.autoplay = a.autoplay
    ∧ r.volume = a.volume ∧ r.balance = a.balance ∧ r.playback_rate = a.playback_rate
    ∧ r.release_mode = a.release_mode ∧ r.on_loaded = a.on_loaded
    ∧ r.on_duration_change = a.on_duration_change ∧ r.on_state_change = a.on_state_change
    ∧ r.on_position_change = a.on_position_change
    ∧ r.on_seek_complete = a.on_seek_complete := by
  have hra : r = a := by
    by_cases hc : (truthy a.src || truthy a.src_base64) = true
    · rw [before_update, if_pos hc] at h
      exact (Except.ok.inj h).symm
    · rw [before_update, if_neg hc] at h
      exact absurd h (by simp)
  subst hra
  exact ⟨rfl, rfl, rfl, rfl, rfl, rfl, rfl, rfl, rfl, rfl, rfl, rfl⟩

/-- Witness for claim C10 at a concrete instance whose activation succeeds. -/
theorem before_update_read_only_witness :
    audio_src.src = audio_src.src ∧ audio_src.src_base64 = audio_src.src_base64
    ∧ audio_src.autoplay = audio_src.autoplay ∧ audio_src.volume = audio_src.volume
    ∧ audio_src.balance = audio_src.balance
    ∧ audio_src.playback_rate = audio_src.playback_rate
    ∧ audio_src.release_mode = audio_src.release_mode
    ∧ audio_src.on_loaded = audio_src.on_loaded
    ∧ audio_src.on_duration_change = audio_src.on_duration_change
    ∧ audio_src.on_state_change = audio_src.on_state_change
    ∧ audio_src.on_position_change = audio_src.on_position_change
    ∧ audio_src.on_seek_complete = audio_src.on_seek_complete :=
  before_update_read_only audio_src audio_src rfl

end FletAudio
